import Mathlib

/-!
Shallow embedding of the trend relevance ranking engine of this repository
(backend/apps/trends: `models.py`, `vectorstore.py`, `tasks.py`).

Conventions of the embedding:
* Python floats are modelled as `ℚ` (all scores here are built from rational
  literals and field operations), except `cosine_similarity`, which uses
  `math.sqrt` and is therefore modelled over `ℝ`.
* Timestamps are seconds (`Int`); `timedelta.days` is floor division by 86400.
* Fallible calls (the remote embedding API, the database query) are modelled
  with `Except String`; a caught exception is a `.error` value.
* The L2 distance of `pgvector` is computed inside PostgreSQL, not by code in
  this repository, so it enters the model as a `Metric` parameter; PostgreSQL
  yields a NULL distance for a NULL `embedding` column and sorts NULLs last
  under ascending `ORDER BY`, which `annotate_distance` / `distance_le` model.
-/

/-- The choice list `TrendArticle.SOURCE_CHOICES` (models.py). -/
def SOURCE_CHOICES : List (String × String) :=
  [("sprout_social", "Sprout Social Insights"),
   ("later", "Later Blog"),
   ("social_media_examiner", "Social Media Examiner")]

/-- The `TrendArticle` model (models.py): `embedding` is nullable
(`VectorField(dimensions=384, null=True, blank=True)`), `published_date`
is nullable. -/
structure TrendArticle where
  url : String
  title : String
  snippet : String
  full_text : String
  source : String
  published_date : Option Int
  embedding : Option (List ℚ)
  deriving Repr, DecidableEq

/-- Django `article.get_source_display()`: the label of the matching choice,
or the raw value when it is not a declared choice. -/
def get_source_display (a : TrendArticle) : String :=
  match SOURCE_CHOICES.find? (fun p => p.1 == a.source) with
  | some p => p.2
  | none => a.source

/-- Age computation `(timezone.now() - self.published_date).days`: Python `timedelta.days`
is floor division of the total seconds by 86400. -/
def days_old (now pub : Int) : Int := Int.fdiv (now - pub) 86400

/-- Property `TrendArticle.recency_factor` (models.py lines 44-61): bucketed recency
score; `0.5` when there is no `published_date`. -/
def recency_factor (now : Int) (a : TrendArticle) : ℚ :=
  match a.published_date with
  | none => 1/2
  | some pub =>
    let d := days_old now pub
    if d ≤ 7 then 1
    else if d ≤ 30 then 8/10
    else if d ≤ 90 then 6/10
    else if d ≤ 180 then 4/10
    else 2/10

/-- The recency buckets exactly as the spec (§3) lists them: ordered
(breakpoint, value) pairs, with `0.2` as the final "else" value. -/
def SPEC_RECENCY_BUCKETS : List (Int × ℚ) :=
  [(7, 1), (30, 8/10), (90, 6/10), (180, 4/10)]

/-- First-bucket lookup over the breakpoint table of the spec. -/
def bucket_lookup (age : Int) : List (Int × ℚ) → ℚ
  | [] => 2/10
  | (bound, v) :: rest => if age ≤ bound then v else bucket_lookup age rest

/-- The description in the spec (§3) of the derived `recency_factor` value,
written as a table lookup rather than a branch chain, for comparison with
the source-level `recency_factor`. -/
def recency_factor_spec (now : Int) (a : TrendArticle) : ℚ :=
  match a.published_date with
  | none => 1/2
  | some pub => bucket_lookup (days_old now pub) SPEC_RECENCY_BUCKETS

/-- Python string slicing `s[:n]`: the prefix of the first `n` characters. -/
def truncate (s : String) (n : Nat) : String := String.mk (s.data.take n)

/-- The remote embedding call `ai_wrapper.get_embeddings([safe_text])`
(vectorstore.py line 24): returns a batch, one vector per input text, or
fails; it is an external API wrapper, so it enters the model as a parameter. -/
abbrev EmbedProvider := String → Except String (List (List ℚ))

/-- Method `TrendVectorStore.generate_embedding` (vectorstore.py lines 19-31):
truncates the text to 8000 characters, takes the first vector of the batch,
and converts every failure (exception or empty batch) into `[]`. -/
def generate_embedding (provider : EmbedProvider) (text : String) : List ℚ :=
  match provider (truncate text 8000) with
  | Except.error _ => []
  | Except.ok embs =>
    match embs with
    | [] => []
    | e :: _ => e

/-- Combined text `f"{article.title}\n{article.snippet}\n{article.full_text[:1000]}"`
(vectorstore.py line 49). -/
def combined_text (a : TrendArticle) : String :=
  a.title ++ "\n" ++ a.snippet ++ "\n" ++ truncate a.full_text 1000

/-- Method `TrendVectorStore.add_article` (vectorstore.py lines 47-60). The `Bool`
is the return value; the `TrendArticle` is the stored row after the call.
`saveOk = false` models `article.save(update_fields=...)` raising: the
exception is caught, `False` is returned and the stored row is unchanged. -/
def add_article (provider : EmbedProvider) (saveOk : Bool) (a : TrendArticle) :
    Bool × TrendArticle :=
  let embedding := generate_embedding provider (combined_text a)
  if embedding.isEmpty then (false, a)
  else if saveOk then (true, { a with embedding := some embedding })
  else (false, a)

/-- Method `TrendVectorStore.cosine_similarity` (vectorstore.py lines 33-45),
pure-Python cosine with a guard for empty or length-mismatched inputs and
for zero magnitudes. `math.sqrt` forces `ℝ` here. -/
noncomputable def cosine_similarity (v1 v2 : List ℝ) : ℝ :=
  if v1.isEmpty || v2.isEmpty || v1.length != v2.length then 0
  else
    let dot_product := ((v1.zip v2).map (fun p => p.1 * p.2)).sum
    let magnitude1 := Real.sqrt ((v1.map (fun a => a * a)).sum)
    let magnitude2 := Real.sqrt ((v2.map (fun b => b * b)).sum)
    if magnitude1 = 0 ∨ magnitude2 = 0 then 0
    else dot_product / (magnitude1 * magnitude2)

/-- The distance metric computed by pgvector inside PostgreSQL (`L2Distance`,
vectorstore.py lines 79-81). It is not code of this repository; the model
is parametric in it. -/
abbrev Metric := List ℚ → List ℚ → ℚ

/-- One row of `annotate(distance=L2Distance(embedding, query_embedding))`:
a NULL `embedding` yields a NULL `distance` (PostgreSQL semantics of the
`<->` operator). -/
def annotate_distance (metric : Metric) (qv : List ℚ) (a : TrendArticle) :
    TrendArticle × Option ℚ :=
  (a, a.embedding.map (fun e => metric e qv))

/-- PostgreSQL `ORDER BY distance` ascending: NULL distances sort last. -/
def distance_le : Option ℚ → Option ℚ → Bool
  | some d1, some d2 => decide (d1 ≤ d2)
  | some _, none => true
  | none, some _ => false
  | none, none => true

/-- The candidate fetch of `search` (vectorstore.py lines 79-81):
`TrendArticle.objects.annotate(distance=...).order_by(distance)[:k*2]`.
No filter on NULL embeddings is applied. The sort is modelled by the
stable `List.insertionSort`; ties under `ORDER BY` are unspecified in
PostgreSQL, and no claim depends on tie order. -/
def nearest_candidates (metric : Metric) (qv : List ℚ)
    (articles : List TrendArticle) (k : ℕ) : List (TrendArticle × Option ℚ) :=
  ((articles.map (annotate_distance metric qv)).insertionSort
      (fun c1 c2 => distance_le c1.2 c2.2 = true)).take (k * 2)

/-- The output unit of `search` (vectorstore.py lines 98-105). -/
structure RankedSnippet where
  title : String
  url : String
  source : String
  snippet : String
  viral_score : ℚ
  similarity : ℚ
  deriving Repr, DecidableEq

/-- The similarity transform `1 / (1 + distance)` (vectorstore.py line 92). -/
def similarity_of_distance (d : ℚ) : ℚ := 1 / (1 + d)

/-- The scoring of one fetched candidate (vectorstore.py lines 84-105):
`dist_val = art.distance if art.distance is not None else 1.0`, then
`similarity = 1 / (1 + dist_val)` and
`viral_score = similarity * 0.7 + art.recency_factor * 0.3`. -/
def score_candidate (now : Int) (c : TrendArticle × Option ℚ) : RankedSnippet :=
  let dist_val : ℚ := c.2.getD 1
  let similarity := similarity_of_distance dist_val
  let viral_score := similarity * (7/10) + recency_factor now c.1 * (3/10)
  { title := c.1.title
    url := c.1.url
    source := get_source_display c.1
    snippet := c.1.snippet
    viral_score := viral_score
    similarity := similarity }

/-- The comparison of `sorted(results, key=..., reverse=True)`
(vectorstore.py line 109): descending order by `viral_score`.
Python `sorted` is a stable sort, modelled by the stable
`List.insertionSort`. -/
def viral_ge (r1 r2 : RankedSnippet) : Bool :=
  decide (r2.viral_score ≤ r1.viral_score)

/-- The body of the `try` block of `TrendVectorStore.search` (vectorstore.py
lines 67-109). An empty query embedding returns `[]` before touching the
store; the database query (the point the `try` protects) is the `store`
value; scoring, sorting and truncation follow. -/
def searchE (metric : Metric) (provider : EmbedProvider)
    (store : Except String (List TrendArticle)) (now : Int)
    (query : String) (k : ℕ) : Except String (List RankedSnippet) :=
  if (generate_embedding provider query).isEmpty then Except.ok []
  else
    match store with
    | Except.error e => Except.error e
    | Except.ok articles =>
      Except.ok (((nearest_candidates metric (generate_embedding provider query)
          articles k |>.map (score_candidate now)).insertionSort
          (fun r1 r2 => viral_ge r1 r2 = true)).take k)

/-- Method `TrendVectorStore.search` (vectorstore.py lines 62-115): the `except`
clause converts every exception of the body into an empty result list. -/
def search (metric : Metric) (provider : EmbedProvider)
    (store : Except String (List TrendArticle)) (now : Int)
    (query : String) (k : ℕ) : List RankedSnippet :=
  match searchE metric provider store now query k with
  | Except.ok r => r
  | Except.error _ => []

/-- Function `get_trend_snippets` (vectorstore.py lines 117-118). -/
def get_trend_snippets (metric : Metric) (provider : EmbedProvider)
    (store : Except String (List TrendArticle)) (now : Int)
    (topic : String) (k : ℕ := 10) : List RankedSnippet :=
  search metric provider store now topic k

/-- The scraped fields of one article as delivered by a scraper
(`data` in tasks.py line 43). -/
structure ArticleData where
  url : String
  title : String
  snippet : String
  full_text : String
  source : String
  published_date : Option Int
  deriving Repr, DecidableEq

/-- Upsert `TrendArticle.objects.update_or_create(url=..., defaults=data)`
(tasks.py lines 46-49): update the row with that url in place, keeping its
`embedding`, or create a fresh row with a NULL embedding. Returns the new
store, the affected article and the `created` flag. -/
def update_or_create (store : List TrendArticle) (data : ArticleData) :
    List TrendArticle × TrendArticle × Bool :=
  match store.find? (fun a => a.url == data.url) with
  | some a =>
    let a2 : TrendArticle :=
      { a with
        title := data.title
        snippet := data.snippet
        full_text := data.full_text
        source := data.source
        published_date := data.published_date }
    (store.map (fun b => if b.url == data.url then a2 else b), a2, false)
  | none =>
    let a2 : TrendArticle :=
      { url := data.url
        title := data.title
        snippet := data.snippet
        full_text := data.full_text
        source := data.source
        published_date := data.published_date
        embedding := none }
    (store ++ [a2], a2, true)

/-- The per-article loop body of `scrape_source` (tasks.py lines 43-61):
upsert by url, and only when the row was newly created run
`TrendVectorStore().add_article(article)`. -/
def ingest_article (provider : EmbedProvider) (store : List TrendArticle)
    (data : ArticleData) : List TrendArticle :=
  let r := update_or_create store data
  if r.2.2 then
    let saved := add_article provider true r.2.1
    r.1.map (fun b => if b.url == r.2.1.url then saved.2 else b)
  else
    r.1

/-! Concrete fixtures, used to evaluate the embedded code on explicit inputs. -/

/-- A distance metric that is constantly zero (any metric exhibits the
behaviour at issue; no claim depends on the values of the metric). -/
def zero_metric : Metric := fun _ _ => 0

/-- An embedding provider that always answers with the vector `[1]`. -/
def const_provider : EmbedProvider := fun _ => Except.ok [[1]]

/-- An embedding provider that answers with an empty vector. -/
def empty_provider : EmbedProvider := fun _ => Except.ok [[]]

/-- An embedding provider whose transport always fails. -/
def fail_provider : EmbedProvider := fun _ => Except.error "embedding api down"

/-- An embedding provider that embeds a text as the one-element vector
holding the length of the text; distinct lengths give distinct embeddings. -/
def len_provider : EmbedProvider := fun t => Except.ok [[(t.length : ℚ)]]

/-- A database whose query raises. -/
def db_error_store : Except String (List TrendArticle) := Except.error "db down"

/-- A stored article whose `embedding` column is NULL. -/
def unembedded_article : TrendArticle :=
  { url := "https://example.com/a"
    title := "A"
    snippet := "s"
    full_text := "f"
    source := "later"
    published_date := none
    embedding := none }

/-- A stored article with a computed embedding. -/
def embedded_article_1 : TrendArticle :=
  { url := "https://example.com/e1"
    title := "E1"
    snippet := "s1"
    full_text := "f1"
    source := "later"
    published_date := none
    embedding := some [1] }

/-- A second stored article with a computed embedding. -/
def embedded_article_2 : TrendArticle :=
  { url := "https://example.com/e2"
    title := "E2"
    snippet := "s2"
    full_text := "f2"
    source := "later"
    published_date := none
    embedding := some [2] }

/-- An article published at timestamp 0, for boundary checks of
`recency_factor`. -/
def boundary_article : TrendArticle :=
  { url := "https://example.com/b"
    title := "B"
    snippet := "s"
    full_text := "f"
    source := "later"
    published_date := some 0
    embedding := none }

/-- Scraped fields of an article at first ingestion. -/
def old_data : ArticleData :=
  { url := "https://example.com/p"
    title := "old"
    snippet := "s"
    full_text := "f"
    source := "later"
    published_date := none }

/-- The same url scraped again later, with a changed title. -/
def new_data : ArticleData := { old_data with title := "new title" }

/-- The stored row after ingesting `old_data` and then `new_data`: the
fields are updated but the embedding still encodes the old combined text
(`"old\ns\nf"` has 7 characters, so `len_provider` stored `[7]`), while the
current combined text `"new title\ns\nf"` has 13 characters. -/
def stale_article : TrendArticle :=
  { url := "https://example.com/p"
    title := "new title"
    snippet := "s"
    full_text := "f"
    source := "later"
    published_date := none
    embedding := some [7] }

/-- The snippet `search` produces for `embedded_article_1` under
`zero_metric` and `const_provider`: distance 0, similarity 1, recency 1/2,
viral score `1 * 0.7 + 0.5 * 0.3 = 17/20`. -/
def sample_snippet : RankedSnippet :=
  { title := "E1"
    url := "https://example.com/e1"
    source := "Later Blog"
    snippet := "s1"
    viral_score := 17/20
    similarity := 1 }

/-! Theorems. -/

theorem distance_le_trans (a b c : Option ℚ) (h1 : distance_le a b = true)
    (h2 : distance_le b c = true) : distance_le a c = true := by
  cases a <;> cases b <;> cases c <;> simp_all [distance_le]
  exact le_trans h1 h2

theorem distance_le_total (a b : Option ℚ) :
    distance_le a b = true ∨ distance_le b a = true := by
  cases a <;> cases b <;> simp [distance_le]
  exact le_total _ _

theorem distance_le_none_left (b : Option ℚ) (h : distance_le none b = true) :
    b = none := by
  cases b with
  | none => rfl
  | some d => simp [distance_le] at h

/-- claim C3: `recency_factor` is the exact step function of the bucket
table in the spec: 0.5 with no `published_date`, then 1.0 / 0.8 / 0.6 / 0.4 for
ages at most 7 / 30 / 90 / 180 days (each boundary inclusive on the ≤ side)
and 0.2 beyond; in particular an article exactly 7 days old scores 1.0 and
one exactly 8 days old scores 0.8. -/
theorem claim_C3 :
    (∀ (now : Int) (a : TrendArticle),
      recency_factor now a = recency_factor_spec now a) ∧
    recency_factor (7 * 86400) boundary_article = 1 ∧
    recency_factor (8 * 86400) boundary_article = 8/10 := by
  refine ⟨?_, by with_unfolding_all decide, by with_unfolding_all decide⟩
  intro now a
  cases h : a.published_date with
  | none => simp [recency_factor, recency_factor_spec, h]
  | some p =>
    simp [recency_factor, recency_factor_spec, h, SPEC_RECENCY_BUCKETS,
      bucket_lookup]

/-- claim C4: the similarity transform is `1 / (1 + distance)`; it maps 0
to 1, every finite non-negative distance into `(0, 1]`, and is strictly
decreasing in the distance. -/
theorem claim_C4 :
    similarity_of_distance 0 = 1 ∧
    (∀ d : ℚ, 0 ≤ d →
      0 < similarity_of_distance d ∧ similarity_of_distance d ≤ 1) ∧
    (∀ d1 d2 : ℚ, 0 ≤ d1 → d1 < d2 →
      similarity_of_distance d2 < similarity_of_distance d1) := by
  refine ⟨by norm_num [similarity_of_distance], ?_, ?_⟩
  · intro d hd
    constructor
    · have h1 : (0:ℚ) < 1 + d := by linarith
      exact div_pos one_pos h1
    · have h1 : (0:ℚ) < 1 + d := by linarith
      rw [similarity_of_distance, div_le_one h1]
      linarith
  · intro d1 d2 hd1 hlt
    have h1 : (0:ℚ) < 1 + d1 := by linarith
    have h2 : (0:ℚ) < 1 + d2 := by linarith
    rw [similarity_of_distance, similarity_of_distance]
    apply div_lt_div_of_pos_left one_pos h1
    linarith

/-- claim C4 witness: evaluation at the concrete distances 3 and 5. -/
theorem claim_C4_witness :
    (0 < similarity_of_distance 3 ∧ similarity_of_distance 3 ≤ 1) ∧
    similarity_of_distance 5 < similarity_of_distance 3 :=
  ⟨claim_C4.2.1 3 (by norm_num), claim_C4.2.2 3 5 (by norm_num) (by norm_num)⟩

/-- claim C9: when either input vector has zero magnitude (all entries
zero), `cosine_similarity` returns 0 instead of dividing by zero; the
division branch is guarded by both magnitudes being nonzero. -/
theorem claim_C9 (v1 v2 : List ℝ)
    (h : (∀ x ∈ v1, x = 0) ∨ (∀ x ∈ v2, x = 0)) :
    cosine_similarity v1 v2 = 0 := by
  have hm : ∀ (v : List ℝ), (∀ x ∈ v, x = 0) →
      Real.sqrt ((v.map (fun a => a * a)).sum) = 0 := by
    intro v hv
    have hz : (v.map (fun a => a * a)).sum = 0 := by
      apply List.sum_eq_zero
      intro y hy
      obtain ⟨x, hx, rfl⟩ := List.mem_map.mp hy
      rw [hv x hx]
      ring
    rw [hz, Real.sqrt_zero]
  simp only [cosine_similarity]
  split
  · rfl
  · rw [if_pos]
    rcases h with h | h
    · exact Or.inl (hm v1 h)
    · exact Or.inr (hm v2 h)

/-- claim C9 witness: the zero vector `[0, 0]` against `[1, 2]`. -/
theorem claim_C9_witness :
    (∀ x ∈ [(0:ℝ), 0], x = 0) ∧ cosine_similarity [0, 0] [1, 2] = 0 :=
  ⟨by simp, claim_C9 [0, 0] [1, 2] (Or.inl (by simp))⟩

/-- claim C10: `add_article` is atomic on failure: when embedding
generation yields an empty result (provider failure or empty answer) or
the save raises, it returns `False` and the stored row is unchanged; it
returns `True` exactly when a non-empty embedding was produced and the
save succeeded, and then the stored embedding field holds that vector. -/
theorem claim_C10 (provider : EmbedProvider) (saveOk : Bool) (a : TrendArticle) :
    ((add_article provider saveOk a).1 = false →
      (add_article provider saveOk a).2 = a) ∧
    (generate_embedding provider (combined_text a) = [] →
      add_article provider saveOk a = (false, a)) ∧
    ((add_article provider saveOk a).1 = true ↔
      generate_embedding provider (combined_text a) ≠ [] ∧ saveOk = true) ∧
    ((add_article provider saveOk a).1 = true →
      (add_article provider saveOk a).2.embedding =
        some (generate_embedding provider (combined_text a))) := by
  unfold add_article
  cases he : generate_embedding provider (combined_text a) with
  | nil => simp
  | cons x xs => cases saveOk <;> simp [he]

/-- claim C10 witness: a failing provider makes `add_article` return
`False` and leave the article unchanged. -/
theorem claim_C10_witness :
    generate_embedding fail_provider (combined_text unembedded_article) = [] ∧
    add_article fail_provider true unembedded_article =
      (false, unembedded_article) :=
  ⟨by decide, (claim_C10 fail_provider true unembedded_article).2.1 (by decide)⟩

/-- claim C2 (code bug evaluation): re-ingesting an existing url with a
changed title updates the stored fields but never recomputes the
embedding: the stored vector `[7]` still encodes the old combined text,
while embedding the current fields of the article would give `[13]`. -/
theorem claim_C2_bug :
    ingest_article len_provider (ingest_article len_provider [] old_data)
      new_data = [stale_article] ∧
    stale_article.title = "new title" ∧
    generate_embedding len_provider (combined_text stale_article) = [13] ∧
    stale_article.embedding ≠
      some (generate_embedding len_provider (combined_text stale_article)) := by
  with_unfolding_all decide

/-- claim C7: the service boundary never propagates an exception: whenever
the body of `search` fails (embedding transport, database query),
`get_trend_snippets` returns the empty list. -/
theorem claim_C7 (metric : Metric) (provider : EmbedProvider)
    (store : Except String (List TrendArticle)) (now : Int)
    (topic : String) (k : ℕ) (e : String)
    (he : searchE metric provider store now topic k = Except.error e) :
    get_trend_snippets metric provider store now topic k = [] := by
  simp [get_trend_snippets, search, he]

/-- claim C7 witness: a raising database query is converted into `[]`. -/
theorem claim_C7_witness :
    searchE zero_metric const_provider db_error_store 0 "t" 5 =
      Except.error "db down" ∧
    get_trend_snippets zero_metric const_provider db_error_store 0 "t" 5 = [] :=
  ⟨by with_unfolding_all rfl, claim_C7 zero_metric const_provider
    db_error_store 0 "t" 5 "db down" (by with_unfolding_all rfl)⟩

/-- claim C8: when the embedding provider yields an empty vector for the
topic, `search` returns `[]` immediately, without raising and without
querying the article store (the result is `[]` for every store value,
including a raising one). -/
theorem claim_C8 (metric : Metric) (provider : EmbedProvider)
    (store : Except String (List TrendArticle)) (now : Int)
    (topic : String) (k : ℕ)
    (hq : generate_embedding provider topic = []) :
    search metric provider store now topic k = [] := by
  simp [search, searchE, hq]

/-- claim C8 witness: a provider answering an empty vector, against a
store whose query would raise: the result is still `[]`. -/
theorem claim_C8_witness :
    generate_embedding empty_provider "t" = [] ∧
    search zero_metric empty_provider db_error_store 0 "t" 3 = [] :=
  ⟨by decide, claim_C8 zero_metric empty_provider db_error_store 0 "t" 3
    (by decide)⟩

theorem isSome_map_embedding (o : Option (List ℚ)) (f : List ℚ → ℚ) :
    (o.map f).isSome = o.isSome := by
  cases o <;> rfl

theorem sorted_nearest (metric : Metric) (qv : List ℚ)
    (articles : List TrendArticle) :
    ((articles.map (annotate_distance metric qv)).insertionSort
      (fun c1 c2 => distance_le c1.2 c2.2 = true)).Pairwise
      (fun c1 c2 => distance_le c1.2 c2.2 = true) := by
  haveI : IsTotal (TrendArticle × Option ℚ)
      (fun c1 c2 => distance_le c1.2 c2.2 = true) :=
    ⟨fun a b => distance_le_total a.2 b.2⟩
  haveI : IsTrans (TrendArticle × Option ℚ)
      (fun c1 c2 => distance_le c1.2 c2.2 = true) :=
    ⟨fun a b c => distance_le_trans a.2 b.2 c.2⟩
  exact List.sorted_insertionSort _ _

theorem sorted_distance_none_split (l : List (TrendArticle × Option ℚ))
    (h : l.Pairwise (fun c1 c2 => distance_le c1.2 c2.2 = true)) :
    ∃ l1 l2, l = l1 ++ l2 ∧ (∀ c ∈ l1, c.2.isSome = true) ∧
      ∀ c ∈ l2, c.2 = none := by
  induction l with
  | nil => exact ⟨[], [], rfl, by simp, by simp⟩
  | cons c l ih =>
    rw [List.pairwise_cons] at h
    obtain ⟨hc, hl⟩ := h
    cases hc2 : c.2 with
    | none =>
      refine ⟨[], c :: l, rfl, by simp, ?_⟩
      intro x hx
      rcases List.mem_cons.mp hx with rfl | hx
      · exact hc2
      · have hx2 := hc x hx
        rw [hc2] at hx2
        exact distance_le_none_left _ hx2
    | some d =>
      obtain ⟨l1, l2, heq, h1, h2⟩ := ih hl
      refine ⟨c :: l1, l2, by rw [heq, List.cons_append], ?_, h2⟩
      intro x hx
      rcases List.mem_cons.mp hx with rfl | hx
      · rw [hc2]
        rfl
      · exact h1 x hx

theorem mem_nearest_candidates (metric : Metric) (qv : List ℚ)
    (articles : List TrendArticle) (k : ℕ) (c : TrendArticle × Option ℚ)
    (hc : c ∈ nearest_candidates metric qv articles k) :
    ∃ a ∈ articles, c = annotate_distance metric qv a := by
  have h1 : c ∈ (articles.map (annotate_distance metric qv)).insertionSort
      (fun c1 c2 => distance_le c1.2 c2.2 = true) :=
    List.take_subset _ _ hc
  have h2 : c ∈ articles.map (annotate_distance metric qv) :=
    (List.perm_insertionSort _ _).mem_iff.mp h1
  obtain ⟨a, ha, rfl⟩ := List.mem_map.mp h2
  exact ⟨a, ha, rfl⟩

theorem nearest_candidates_embedded (metric : Metric) (qv : List ℚ)
    (articles : List TrendArticle) (k : ℕ)
    (hM : k * 2 ≤ articles.countP (fun a => a.embedding.isSome)) :
    ∀ c ∈ nearest_candidates metric qv articles k,
      c.1.embedding.isSome = true := by
  obtain ⟨l1, l2, heq, h1, h2⟩ :=
    sorted_distance_none_split _ (sorted_nearest metric qv articles)
  have hcount : ((articles.map (annotate_distance metric qv)).insertionSort
      (fun c1 c2 => distance_le c1.2 c2.2 = true)).countP
        (fun c => c.2.isSome) =
      articles.countP (fun a => a.embedding.isSome) := by
    rw [(List.perm_insertionSort _ _).countP_eq, List.countP_map]
    apply List.countP_congr
    intro a _
    simp [Function.comp, annotate_distance, isSome_map_embedding]
  have hl1 : l1.countP (fun c => c.2.isSome) = l1.length :=
    List.countP_eq_length.mpr h1
  have hl2 : l2.countP (fun c => c.2.isSome) = 0 := by
    apply List.countP_eq_zero.mpr
    intro a ha
    rw [h2 a ha]
    simp
  have hlen : k * 2 ≤ l1.length := by
    rw [heq, List.countP_append, hl1, hl2] at hcount
    omega
  intro c hc
  have hc1 : c ∈ l1 := by
    have ht : nearest_candidates metric qv articles k =
        l1.take (k * 2) ++ l2.take (k * 2 - l1.length) := by
      rw [nearest_candidates, heq, List.take_append_eq_append_take]
    rw [ht] at hc
    have hz : k * 2 - l1.length = 0 := by omega
    rw [hz, List.take_zero, List.append_nil] at hc
    exact List.take_subset _ _ hc
  have hsome := h1 c hc1
  have hcm : c ∈ (articles.map (annotate_distance metric qv)).insertionSort
      (fun c1 c2 => distance_le c1.2 c2.2 = true) := by
    rw [heq]
    exact List.mem_append_left l2 hc1
  have hm2 : c ∈ articles.map (annotate_distance metric qv) :=
    (List.perm_insertionSort _ _).mem_iff.mp hcm
  obtain ⟨a, _, rfl⟩ := List.mem_map.mp hm2
  simpa [annotate_distance, isSome_map_embedding] using hsome

theorem sorted_viral (l : List RankedSnippet) :
    (l.insertionSort (fun r1 r2 => viral_ge r1 r2 = true)).Pairwise
      (fun r1 r2 => r2.viral_score ≤ r1.viral_score) := by
  haveI : IsTotal RankedSnippet (fun r1 r2 => viral_ge r1 r2 = true) :=
    ⟨fun a b => by
      simp only [viral_ge, decide_eq_true_eq]
      exact le_total _ _⟩
  haveI : IsTrans RankedSnippet (fun r1 r2 => viral_ge r1 r2 = true) :=
    ⟨fun a b c hab hbc => by
      simp only [viral_ge, decide_eq_true_eq] at *
      exact le_trans hbc hab⟩
  have h := List.sorted_insertionSort (fun r1 r2 => viral_ge r1 r2 = true) l
  exact h.imp (fun hab => of_decide_eq_true hab)

theorem mem_search (metric : Metric) (provider : EmbedProvider)
    (articles : List TrendArticle) (now : Int) (query : String) (k : ℕ)
    (r : RankedSnippet)
    (hr : r ∈ search metric provider (Except.ok articles) now query k) :
    ∃ c ∈ nearest_candidates metric (generate_embedding provider query)
        articles k, r = score_candidate now c := by
  by_cases hq : (generate_embedding provider query).isEmpty
  · simp [search, searchE, hq] at hr
  · simp only [search, searchE, hq, Bool.false_eq_true, if_neg,
      Bool.not_eq_true] at hr
    have h1 : r ∈ (nearest_candidates metric
        (generate_embedding provider query) articles k).map
        (score_candidate now) :=
      (List.perm_insertionSort _ _).mem_iff.mp (List.take_subset _ _ hr)
    obtain ⟨c, hc, rfl⟩ := List.mem_map.mp h1
    exact ⟨c, hc, rfl⟩

/-- claim C1 counterexample: a store holding a single article whose
embedding is NULL (N = 1 articles, M = 1 without embedding, so the claim
allows at most N - M = 0 results and forbids fabricated distances):
`search` nevertheless returns that article, scored with the defaulted
distance 1.0 (similarity 1/2). -/
theorem claim_C1_counterexample :
    unembedded_article.embedding = none ∧
    search zero_metric const_provider (Except.ok [unembedded_article]) 0
        "t" 1 =
      [{ title := "A"
         url := "https://example.com/a"
         source := "Later Blog"
         snippet := "s"
         viral_score := 1/2
         similarity := 1/2 }] := by
  with_unfolding_all decide

/-- claim C1 amended: the nearest-neighbor fetch does not exclude articles
with a NULL embedding. Instead: (1) when the store holds at least `2*k`
embedded articles, every fetched candidate is embedded (NULL distances sort
last, so unembedded articles are crowded out); (2) a NULL distance is never
followed by a non-NULL one among the candidates; (3) an unembedded article
that does reach scoring is given the defaulted (fabricated) distance 1.0,
hence similarity 1/2. -/
theorem claim_C1_amended (metric : Metric) (qv : List ℚ)
    (articles : List TrendArticle) (k : ℕ) (now : Int) :
    (k * 2 ≤ articles.countP (fun a => a.embedding.isSome) →
      ∀ c ∈ nearest_candidates metric qv articles k,
        c.1.embedding.isSome = true) ∧
    (nearest_candidates metric qv articles k).Pairwise
      (fun c1 c2 => c1.2 = none → c2.2 = none) ∧
    (∀ a : TrendArticle, (score_candidate now (a, none)).similarity =
      similarity_of_distance 1) ∧
    similarity_of_distance 1 = 1/2 := by
  refine ⟨nearest_candidates_embedded metric qv articles k, ?_, ?_, ?_⟩
  · unfold nearest_candidates
    refine List.Pairwise.imp ?_ (List.Pairwise.sublist
      (List.take_sublist (k * 2) _) (sorted_nearest metric qv articles))
    intro c1 c2 hle h1
    rw [h1] at hle
    exact distance_le_none_left _ hle
  · intro a
    rfl
  · norm_num [similarity_of_distance]

/-- claim C1 amended witness: with two embedded articles stored and
`k = 1`, every fetched candidate is embedded. -/
theorem claim_C1_amended_witness :
    1 * 2 ≤ List.countP (fun a => a.embedding.isSome)
      [embedded_article_1, embedded_article_2] ∧
    ∀ c ∈ nearest_candidates zero_metric [1]
        [embedded_article_1, embedded_article_2] 1,
      c.1.embedding.isSome = true :=
  ⟨by decide, (claim_C1_amended zero_metric [1]
    [embedded_article_1, embedded_article_2] 1 0).1 (by decide)⟩

/-- claim C5: every snippet returned by `search` is the score of some
stored article, its similarity is the transform of the (possibly
defaulted) distance of that article, and its viral score is exactly
`similarity * 0.7 + recency_factor * 0.3`. -/
theorem claim_C5 (metric : Metric) (provider : EmbedProvider)
    (articles : List TrendArticle) (now : Int) (query : String) (k : ℕ)
    (r : RankedSnippet)
    (hr : r ∈ search metric provider (Except.ok articles) now query k) :
    ∃ a ∈ articles,
      r.similarity = similarity_of_distance
        ((annotate_distance metric (generate_embedding provider query)
          a).2.getD 1) ∧
      r.viral_score = r.similarity * (7/10) +
        recency_factor now a * (3/10) := by
  obtain ⟨c, hc, rfl⟩ :=
    mem_search metric provider articles now query k r hr
  obtain ⟨a, ha, rfl⟩ :=
    mem_nearest_candidates metric (generate_embedding provider query)
      articles k c hc
  exact ⟨a, ha, rfl, rfl⟩

/-- claim C5 witness: the concrete store `[embedded_article_1]` yields the
snippet `sample_snippet`, whose viral score is the 0.7 / 0.3 blend. -/
theorem claim_C5_witness :
    sample_snippet ∈ search zero_metric const_provider
      (Except.ok [embedded_article_1]) 0 "q" 1 ∧
    ∃ a ∈ [embedded_article_1],
      sample_snippet.similarity = similarity_of_distance
        ((annotate_distance zero_metric
          (generate_embedding const_provider "q") a).2.getD 1) ∧
      sample_snippet.viral_score = sample_snippet.similarity * (7/10) +
        recency_factor 0 a * (3/10) :=
  ⟨by with_unfolding_all decide,
   claim_C5 zero_metric const_provider [embedded_article_1] 0 "q" 1
     sample_snippet (by with_unfolding_all decide)⟩

/-- claim C6: when the query embedding is non-empty, `search` over a store
of N articles returns exactly `min k N` results (hence never more than k),
sorted by viral score in descending order. -/
theorem claim_C6 (metric : Metric) (provider : EmbedProvider)
    (articles : List TrendArticle) (now : Int) (query : String) (k : ℕ)
    (hq : generate_embedding provider query ≠ []) :
    (search metric provider (Except.ok articles) now query k).length =
      min k articles.length ∧
    (search metric provider (Except.ok articles) now query k).Pairwise
      (fun r1 r2 => r2.viral_score ≤ r1.viral_score) := by
  have hq2 : (generate_embedding provider query).isEmpty = false := by
    cases h : generate_embedding provider query with
    | nil => exact absurd h hq
    | cons x xs => rfl
  have hsr : search metric provider (Except.ok articles) now query k =
      ((nearest_candidates metric (generate_embedding provider query)
        articles k |>.map (score_candidate now)).insertionSort
        (fun r1 r2 => viral_ge r1 r2 = true)).take k := by
    simp [search, searchE, hq2]
  rw [hsr]
  constructor
  · rw [List.length_take, List.length_insertionSort, List.length_map,
      nearest_candidates, List.length_take, List.length_insertionSort,
      List.length_map]
    omega
  · exact (sorted_viral _).sublist (List.take_sublist _ _)

/-- claim C6 witness: one stored article and `k = 1`: one result, sorted. -/
theorem claim_C6_witness :
    generate_embedding const_provider "q" ≠ [] ∧
    (search zero_metric const_provider (Except.ok [embedded_article_1]) 0
        "q" 1).length = min 1 [embedded_article_1].length ∧
    (search zero_metric const_provider (Except.ok [embedded_article_1]) 0
        "q" 1).Pairwise (fun r1 r2 => r2.viral_score ≤ r1.viral_score) :=
  ⟨by decide,
   (claim_C6 zero_metric const_provider [embedded_article_1] 0 "q" 1
     (by decide)).1,
   (claim_C6 zero_metric const_provider [embedded_article_1] 0 "q" 1
     (by decide)).2⟩
